import Mathlib

/-!
# Verification of the goddard 4x4 matrix / 3-vector math core (src/goddard/gd_math.c)

Shallow embedding of the C source over the rationals.  The C code computes
with `f32`; here every arithmetic operation is embedded exactly over `ℚ`
(idealized real arithmetic, no rounding).  The external square-root primitive
`sqrtf` and the trig adapter (`degrees_to_angle`, `sins`, `coss`) are not part
of this translation unit; functions that use them take them as parameters.
The fatal error reporter (`fatal_print` / `fatal_printf`) never returns, so a
function that may reach it is embedded as returning `Option` (`none` = the
fatal path was reached; no normal result is produced).

Matrices are row-major, `m⟨row⟩⟨col⟩`, exactly as the C `Mat4f` indexing
`(*mtx)[row][col]`.
-/

/-- 3-component float vector `struct GdVec3f`. -/
structure GdVec3f where
  x : ℚ
  y : ℚ
  z : ℚ
deriving DecidableEq, Repr

/-- 4x4 float matrix `Mat4f`, row-major: field `mRC` is `(*mtx)[R][C]`. -/
@[ext]
structure Mat4f where
  m00 : ℚ
  m01 : ℚ
  m02 : ℚ
  m03 : ℚ
  m10 : ℚ
  m11 : ℚ
  m12 : ℚ
  m13 : ℚ
  m20 : ℚ
  m21 : ℚ
  m22 : ℚ
  m23 : ℚ
  m30 : ℚ
  m31 : ℚ
  m32 : ℚ
  m33 : ℚ
deriving DecidableEq, Repr

/-- The `sqr` macro: `sqr(x) = x * x`. -/
def sqr (x : ℚ) : ℚ := x * x

/-- The `absf` macro: absolute value of a float. -/
def absf (x : ℚ) : ℚ := |x|

/-- Squared magnitude expression `sqr(v.x) + sqr(v.y) + sqr(v.z)` that the
source writes inline in `gd_normalize_vec3f` and `gd_vec3f_magnitude`. -/
def sqMag (v : GdVec3f) : ℚ := sqr v.x + sqr v.y + sqr v.z

/-- `gd_normalize_vec3f`: returns the written-back vector together with the
C return value (`TRUE`/`FALSE`).  `sqrtf` is the external square root. -/
def gd_normalize_vec3f (sqrtf : ℚ → ℚ) (vec : GdVec3f) : GdVec3f × Bool :=
  let mag := sqr vec.x + sqr vec.y + sqr vec.z
  if mag = 0 then (⟨0, 0, 0⟩, false)
  else
    let mag := 1 / sqrtf mag
    (⟨vec.x * mag, vec.y * mag, vec.z * mag⟩, true)

/-- `gd_vec3f_magnitude`. -/
def gd_vec3f_magnitude (sqrtf : ℚ → ℚ) (vec : GdVec3f) : ℚ :=
  sqrtf (sqr vec.x + sqr vec.y + sqr vec.z)

/-- `gd_set_identity_mat4` (as the produced matrix). -/
def gd_set_identity_mat4 : Mat4f :=
  ⟨1, 0, 0, 0,
   0, 1, 0, 0,
   0, 0, 1, 0,
   0, 0, 0, 1⟩

/-- `gd_copy_mat4f`. -/
def gd_copy_mat4f (src : Mat4f) : Mat4f :=
  ⟨src.m00, src.m01, src.m02, src.m03,
   src.m10, src.m11, src.m12, src.m13,
   src.m20, src.m21, src.m22, src.m23,
   src.m30, src.m31, src.m32, src.m33⟩

/-- One `GD_MAT4_DOT_PROD(A, B, R, row, col)` entry:
`R[row][col] = Σ_k A[row][k] * B[k][col]`. -/
def gd_mat4_dot_prod (a0 a1 a2 a3 b0 b1 b2 b3 : ℚ) : ℚ :=
  a0 * b0 + a1 * b1 + a2 * b2 + a3 * b3

/-- `gd_mult_mat4f`: `dst = mA · mB` computed into a local `res` (macro
`GD_MAT4_MULTIPLY`) and then copied, so `dst` may alias an input. -/
def gd_mult_mat4f (mA mB : Mat4f) : Mat4f :=
  gd_copy_mat4f
    ⟨gd_mat4_dot_prod mA.m00 mA.m01 mA.m02 mA.m03 mB.m00 mB.m10 mB.m20 mB.m30,
     gd_mat4_dot_prod mA.m00 mA.m01 mA.m02 mA.m03 mB.m01 mB.m11 mB.m21 mB.m31,
     gd_mat4_dot_prod mA.m00 mA.m01 mA.m02 mA.m03 mB.m02 mB.m12 mB.m22 mB.m32,
     gd_mat4_dot_prod mA.m00 mA.m01 mA.m02 mA.m03 mB.m03 mB.m13 mB.m23 mB.m33,
     gd_mat4_dot_prod mA.m10 mA.m11 mA.m12 mA.m13 mB.m00 mB.m10 mB.m20 mB.m30,
     gd_mat4_dot_prod mA.m10 mA.m11 mA.m12 mA.m13 mB.m01 mB.m11 mB.m21 mB.m31,
     gd_mat4_dot_prod mA.m10 mA.m11 mA.m12 mA.m13 mB.m02 mB.m12 mB.m22 mB.m32,
     gd_mat4_dot_prod mA.m10 mA.m11 mA.m12 mA.m13 mB.m03 mB.m13 mB.m23 mB.m33,
     gd_mat4_dot_prod mA.m20 mA.m21 mA.m22 mA.m23 mB.m00 mB.m10 mB.m20 mB.m30,
     gd_mat4_dot_prod mA.m20 mA.m21 mA.m22 mA.m23 mB.m01 mB.m11 mB.m21 mB.m31,
     gd_mat4_dot_prod mA.m20 mA.m21 mA.m22 mA.m23 mB.m02 mB.m12 mB.m22 mB.m32,
     gd_mat4_dot_prod mA.m20 mA.m21 mA.m22 mA.m23 mB.m03 mB.m13 mB.m23 mB.m33,
     gd_mat4_dot_prod mA.m30 mA.m31 mA.m32 mA.m33 mB.m00 mB.m10 mB.m20 mB.m30,
     gd_mat4_dot_prod mA.m30 mA.m31 mA.m32 mA.m33 mB.m01 mB.m11 mB.m21 mB.m31,
     gd_mat4_dot_prod mA.m30 mA.m31 mA.m32 mA.m33 mB.m02 mB.m12 mB.m22 mB.m32,
     gd_mat4_dot_prod mA.m30 mA.m31 mA.m32 mA.m33 mB.m03 mB.m13 mB.m23 mB.m33⟩

/-- `gd_2x2_det`. -/
def gd_2x2_det (a b c d : ℚ) : ℚ := a * d - b * c

/-- `gd_3x3_det`. -/
def gd_3x3_det (r0c0 r0c1 r0c2 r1c0 r1c1 r1c2 r2c0 r2c1 r2c2 : ℚ) : ℚ :=
  r0c0 * gd_2x2_det r1c1 r1c2 r2c1 r2c2
    - r1c0 * gd_2x2_det r0c1 r0c2 r2c1 r2c2
    + r2c0 * gd_2x2_det r0c1 r0c2 r1c1 r1c2

/-- `gd_mat4f_det`: the source first repackages `mtx` into `struct InvMat4 inv`
with both row and column order reversed (`inv.rI.cJ = (*mtx)[3-I][3-J]`), then
cofactor-expands.  The `let` names mirror the `inv.rI.cJ` fields. -/
def gd_mat4f_det (mtx : Mat4f) : ℚ :=
  let r3c3 := mtx.m00
  let r2c3 := mtx.m01
  let r1c3 := mtx.m02
  let r0c3 := mtx.m03
  let r3c2 := mtx.m10
  let r2c2 := mtx.m11
  let r1c2 := mtx.m12
  let r0c2 := mtx.m13
  let r3c1 := mtx.m20
  let r2c1 := mtx.m21
  let r1c1 := mtx.m22
  let r0c1 := mtx.m23
  let r3c0 := mtx.m30
  let r2c0 := mtx.m31
  let r1c0 := mtx.m32
  let r0c0 := mtx.m33
  (r3c3 * gd_3x3_det r2c2 r2c1 r2c0 r1c2 r1c1 r1c0 r0c2 r0c1 r0c0
    - r2c3 * gd_3x3_det r3c2 r3c1 r3c0 r1c2 r1c1 r1c0 r0c2 r0c1 r0c0)
    + r1c3 * gd_3x3_det r3c2 r3c1 r3c0 r2c2 r2c1 r2c0 r0c2 r0c1 r0c0
    - r0c3 * gd_3x3_det r3c2 r3c1 r3c0 r2c2 r2c1 r2c0 r1c2 r1c1 r1c0

/-- `gd_adjunct_mat4f`: same reversed-index repackaging into `inv`, then the
16 signed-cofactor assignments to `dst`, in source order. -/
def gd_adjunct_mat4f (src : Mat4f) : Mat4f :=
  let r3c3 := src.m00
  let r2c3 := src.m01
  let r1c3 := src.m02
  let r0c3 := src.m03
  let r3c2 := src.m10
  let r2c2 := src.m11
  let r1c2 := src.m12
  let r0c2 := src.m13
  let r3c1 := src.m20
  let r2c1 := src.m21
  let r1c1 := src.m22
  let r0c1 := src.m23
  let r3c0 := src.m30
  let r2c0 := src.m31
  let r1c0 := src.m32
  let r0c0 := src.m33
  {m00 :=  gd_3x3_det r2c2 r2c1 r2c0 r1c2 r1c1 r1c0 r0c2 r0c1 r0c0,
    m10 := -gd_3x3_det r3c2 r3c1 r3c0 r1c2 r1c1 r1c0 r0c2 r0c1 r0c0,
    m20 :=  gd_3x3_det r3c2 r3c1 r3c0 r2c2 r2c1 r2c0 r0c2 r0c1 r0c0,
    m30 := -gd_3x3_det r3c2 r3c1 r3c0 r2c2 r2c1 r2c0 r1c2 r1c1 r1c0,
    m01 := -gd_3x3_det r2c3 r2c1 r2c0 r1c3 r1c1 r1c0 r0c3 r0c1 r0c0,
    m11 :=  gd_3x3_det r3c3 r3c1 r3c0 r1c3 r1c1 r1c0 r0c3 r0c1 r0c0,
    m21 := -gd_3x3_det r3c3 r3c1 r3c0 r2c3 r2c1 r2c0 r0c3 r0c1 r0c0,
    m31 :=  gd_3x3_det r3c3 r3c1 r3c0 r2c3 r2c1 r2c0 r1c3 r1c1 r1c0,
    m02 :=  gd_3x3_det r2c3 r2c2 r2c0 r1c3 r1c2 r1c0 r0c3 r0c2 r0c0,
    m12 := -gd_3x3_det r3c3 r3c2 r3c0 r1c3 r1c2 r1c0 r0c3 r0c2 r0c0,
    m22 :=  gd_3x3_det r3c3 r3c2 r3c0 r2c3 r2c2 r2c0 r0c3 r0c2 r0c0,
    m32 := -gd_3x3_det r3c3 r3c2 r3c0 r2c3 r2c2 r2c0 r1c3 r1c2 r1c0,
    m03 := -gd_3x3_det r2c3 r2c2 r2c1 r1c3 r1c2 r1c1 r0c3 r0c2 r0c1,
    m13 :=  gd_3x3_det r3c3 r3c2 r3c1 r1c3 r1c2 r1c1 r0c3 r0c2 r0c1,
    m23 := -gd_3x3_det r3c3 r3c2 r3c1 r2c3 r2c2 r2c1 r0c3 r0c2 r0c1,
    m33 :=  gd_3x3_det r3c3 r3c2 r3c1 r2c3 r2c2 r2c1 r1c3 r1c2 r1c1}

/-- The literal `1e-5` threshold of `gd_inverse_mat4f`. -/
def invThreshold : ℚ := 1 / 100000

/-- `gd_inverse_mat4f`: adjugate into `dst`, determinant of `dst` (the
adjugate), fatal (`none`) when `absf(determinant) < 1e-5`, otherwise every
entry of `dst` divided by that determinant. -/
def gd_inverse_mat4f (src : Mat4f) : Option Mat4f :=
  let dst := gd_adjunct_mat4f src
  let determinant := gd_mat4f_det dst
  if absf determinant < invThreshold then none
  else some
    ⟨dst.m00 / determinant, dst.m01 / determinant, dst.m02 / determinant, dst.m03 / determinant,
     dst.m10 / determinant, dst.m11 / determinant, dst.m12 / determinant, dst.m13 / determinant,
     dst.m20 / determinant, dst.m21 / determinant, dst.m22 / determinant, dst.m23 / determinant,
     dst.m30 / determinant, dst.m31 / determinant, dst.m32 / determinant, dst.m33 / determinant⟩

/-- `gd_shift_mat_up`.  Source order: save `temp[i] = mtx[0][i+1]` (row 0,
columns 1..3); the double loop writes `mtx[i-1][j-1] = mtx[i][j]` for
`i, j ∈ 1..3` (each row is fully read before it is overwritten, so the pure
translation reads the original matrix); set column 3 to `(0,0,0,1)`; write
`temp` into row 3, columns 0..2. -/
def gd_shift_mat_up (mtx : Mat4f) : Mat4f :=
  let temp0 := mtx.m01
  let temp1 := mtx.m02
  let temp2 := mtx.m03
  ⟨mtx.m11, mtx.m12, mtx.m13, 0,
   mtx.m21, mtx.m22, mtx.m23, 0,
   mtx.m31, mtx.m32, mtx.m33, 0,
   temp0,   temp1,   temp2,   1⟩

/-- The state of `mtx` in `gd_create_quat_rot_mat` just before the final
`gd_shift_mat_up` call, with the `i = 1..3` loop unrolled
(`i=1: j=2,k=3`; `i=2: j=3,k=1`; `i=3: j=1,k=2`).  The loop writes entries
`[j][i]`, `[i][j]`, `[i][i]`, `[i][0]`; afterwards only `(*mtx)[0][0]` is set
to 1 — entries `[0][1..3]` keep the initial contents of `mtx`. -/
def gd_quat_rot_mat_preshift (q0 q1 q2 q3 : ℚ) (mtx : Mat4f) : Mat4f :=
  let sq0 := sqr q0
  let sq1 := sqr q1
  let sq2 := sqr q2
  let sq3 := sqr q3
  { mtx with
      m21 := 2 * q1 * q2 - 2 * q3 * q0,
      m12 := 2 * q1 * q2 + 2 * q3 * q0,
      m11 := sq1 + sq0 - sq2 - sq3,
      m10 := 0,
      m32 := 2 * q2 * q3 - 2 * q1 * q0,
      m23 := 2 * q2 * q3 + 2 * q1 * q0,
      m22 := sq2 + sq0 - sq3 - sq1,
      m20 := 0,
      m13 := 2 * q3 * q1 - 2 * q2 * q0,
      m31 := 2 * q3 * q1 + 2 * q2 * q0,
      m33 := sq3 + sq0 - sq1 - sq2,
      m30 := 0,
      m00 := 1 }

/-- `gd_create_quat_rot_mat`: fills the matrix as in
`gd_quat_rot_mat_preshift` and then calls `gd_shift_mat_up`. -/
def gd_create_quat_rot_mat (q0 q1 q2 q3 : ℚ) (mtx : Mat4f) : Mat4f :=
  gd_shift_mat_up (gd_quat_rot_mat_preshift q0 q1 q2 q3 mtx)

/-- `gd_create_rot_matrix`: rotation matrix about `vec` from `s = sin`,
`c = cos`, with the source's `rev` swizzle (`rev.z = vec.x`, `rev.y = vec.y`,
`rev.x = vec.z`) and in-source assignment order (the `rev *= s` scaling
happens after the diagonal entries are written). -/
def gd_create_rot_matrix (vec : GdVec3f) (s c : ℚ) : Mat4f :=
  let revz := vec.x
  let revy := vec.y
  let revx := vec.z
  let oneMinusCos := 1 - c
  let omcYX := oneMinusCos * revy * revx
  let omcZX := oneMinusCos * revz * revx
  let omcZY := oneMinusCos * revz * revy
  let d00 := oneMinusCos * sqr revz + c
  let d11 := oneMinusCos * sqr revy + c
  let d22 := oneMinusCos * sqr revx + c
  let revx := revx * s
  let revy := revy * s
  let revz := revz * s
  ⟨d00,          omcZY + revx, omcZX - revy, 0,
   omcZY - revx, d11,          omcYX + revz, 0,
   omcZX + revy, omcYX - revz, d22,          0,
   0,            0,            0,            1⟩

/-- `gd_create_rot_mat_angular`: `ang = degrees_to_angle(deg * 2)`, then
builds the rotation matrix from `sins(ang)`/`coss(ang)`.  The trig adapter
(`degrees_to_angle : f32 → s16`, `sins`, `coss`) is external to this source
file and is passed in as parameters. -/
def gd_create_rot_mat_angular (degrees_to_angle : ℚ → ℤ) (sins coss : ℤ → ℚ)
    (vec : GdVec3f) (deg : ℚ) : Mat4f :=
  let ang := degrees_to_angle (deg * 2)
  gd_create_rot_matrix vec (sins ang) (coss ang)

/-- Modelled from the spec: the principal-axis selector constants
`GD_X_AXIS`, `GD_Y_AXIS`, `GD_Z_AXIS` come from the enum in `gd_types.h`,
which is not part of this translation unit; the spec only requires three
distinct recognized selector values for x, y and z. -/
def GD_X_AXIS : ℤ := 0

/-- Modelled from the spec: see `GD_X_AXIS`. -/
def GD_Y_AXIS : ℤ := 1

/-- Modelled from the spec: see `GD_X_AXIS`. -/
def GD_Z_AXIS : ℤ := 2

/-- `gd_absrot_mat4`: switch on `axisnum` building the unit basis vector
`rot`, `fatal_printf` (= `none`) on the default case, then
`gd_create_rot_mat_angular(&rMat, &rot, ang / 2)` and
`gd_mult_mat4f(mtx, &rMat, mtx)` — i.e. `mtx` is the LEFT factor `mA` and
the rotation matrix the RIGHT factor `mB` of `dst = mA · mB`. -/
def gd_absrot_mat4 (degrees_to_angle : ℚ → ℤ) (sins coss : ℤ → ℚ)
    (axisnum : ℤ) (ang : ℚ) (mtx : Mat4f) : Option Mat4f :=
  let rot : Option GdVec3f :=
    if axisnum = GD_X_AXIS then some ⟨1, 0, 0⟩
    else if axisnum = GD_Y_AXIS then some ⟨0, 1, 0⟩
    else if axisnum = GD_Z_AXIS then some ⟨0, 0, 1⟩
    else none
  match rot with
  | none => none
  | some rot =>
    let rMat := gd_create_rot_mat_angular degrees_to_angle sins coss rot (ang / 2)
    some (gd_mult_mat4f mtx rMat)

/-- The raw direction vector of `gd_mat4f_lookat` (source lines 24-26):
`d.z = xTo - xFrom; d.y = yTo - yFrom; d.x = zTo - zFrom`. -/
def gd_lookat_dir (xFrom yFrom zFrom xTo yTo zTo : ℚ) : GdVec3f :=
  ⟨zTo - zFrom, yTo - yFrom, xTo - xFrom⟩

/-- The rescaling step of `gd_mat4f_lookat` (source lines 28-37): if
`absf(d.z) + absf(d.y) + absf(d.x)` is `> 10000` or `< 10`, normalize `d`
and multiply each component by `10000`; otherwise leave `d` unchanged. -/
def gd_lookat_rescale (sqrtf : ℚ → ℚ) (d : GdVec3f) : GdVec3f :=
  let invLength := absf d.z + absf d.y + absf d.x
  if invLength > 10000 ∨ invLength < 10 then
    let n := (gd_normalize_vec3f sqrtf d).1
    ⟨n.x * 10000, n.y * 10000, n.z * 10000⟩
  else d

/-- `gd_mat4f_lookat`, assembled from the staged direction computation and
the remaining basis construction, following the source line by line. -/
def gd_mat4f_lookat (sqrtf : ℚ → ℚ)
    (xFrom yFrom zFrom xTo yTo zTo zColY yColY xColY : ℚ) : Mat4f :=
  let d := gd_lookat_rescale sqrtf (gd_lookat_dir xFrom yFrom zFrom xTo yTo zTo)
  let invLength := -(1 / sqrtf (sqr d.z + sqr d.y + sqr d.x))
  let d : GdVec3f := ⟨d.x * invLength, d.y * invLength, d.z * invLength⟩
  let colX : GdVec3f :=
    ⟨zColY * d.y - yColY * d.z, xColY * d.z - zColY * d.x, yColY * d.x - xColY * d.y⟩
  let invLength := 1 / sqrtf (sqr colX.z + sqr colX.y + sqr colX.x)
  let colX : GdVec3f := ⟨colX.x * invLength, colX.y * invLength, colX.z * invLength⟩
  let zColY := d.y * colX.x - d.x * colX.y
  let yColY := d.x * colX.z - d.z * colX.x
  let xColY := d.z * colX.y - d.y * colX.z
  let invLength := 1 / sqrtf (sqr zColY + sqr yColY + sqr xColY)
  let zColY := zColY * invLength
  let yColY := yColY * invLength
  let xColY := xColY * invLength
  ⟨colX.z, zColY, d.z, 0,
   colX.y, yColY, d.y, 0,
   colX.x, xColY, d.x, 0,
   -(xFrom * colX.z + yFrom * colX.y + zFrom * colX.x),
   -(xFrom * zColY + yFrom * yColY + zFrom * xColY),
   -(xFrom * d.z + yFrom * d.y + zFrom * d.x),
   1⟩

/-- `gd_create_origin_lookat`: copies `vec` into `unit`, normalizes it (the
boolean result is ignored by the source), computes
`hMag = sqrtf(sqr(unit.x) + sqr(unit.z))`, starts from the identity matrix
and overwrites every entry in either branch: a computed basis when
`hMag != 0`, the fixed hardcoded basis when `hMag == 0`. -/
def gd_create_origin_lookat (sqrtf : ℚ → ℚ) (vec : GdVec3f) : Mat4f :=
  let unit := (gd_normalize_vec3f sqrtf ⟨vec.x, vec.y, vec.z⟩).1
  let hMag := sqrtf (sqr unit.x + sqr unit.z)
  if hMag ≠ 0 then
    let invertedHMag := 1 / hMag
    ⟨-unit.z * invertedHMag,        0,                              unit.x * invertedHMag,          0,
     -(unit.y * unit.x) * invertedHMag, hMag,                       -(unit.y * unit.z) * invertedHMag, 0,
     -unit.x,                       -unit.y,                        -unit.z,                        0,
     0,                             0,                              0,                              1⟩
  else
    ⟨0, 0, 1, 0,
     1, 0, 0, 0,
     0, 1, 0, 0,
     0, 0, 0, 1⟩

set_option maxHeartbeats 1600000 in
/-- `gd_adjunct_mat4f` executed with `dst` aliasing `src`: the single shared
buffer starts as `m`, all 16 reads into the local `struct InvMat4 inv`
happen first (exactly as in the source), and then the 16 entry writes are
applied to the shared buffer one at a time, in source order, each value
depending only on `inv`. -/
def gd_adjunct_mat4f_aliased (m : Mat4f) : Mat4f :=
  let r3c3 := m.m00
  let r2c3 := m.m01
  let r1c3 := m.m02
  let r0c3 := m.m03
  let r3c2 := m.m10
  let r2c2 := m.m11
  let r1c2 := m.m12
  let r0c2 := m.m13
  let r3c1 := m.m20
  let r2c1 := m.m21
  let r1c1 := m.m22
  let r0c1 := m.m23
  let r3c0 := m.m30
  let r2c0 := m.m31
  let r1c0 := m.m32
  let r0c0 := m.m33
  let b := m
  let b := {b with m00 :=  gd_3x3_det r2c2 r2c1 r2c0 r1c2 r1c1 r1c0 r0c2 r0c1 r0c0}
  let b := {b with m10 := -gd_3x3_det r3c2 r3c1 r3c0 r1c2 r1c1 r1c0 r0c2 r0c1 r0c0}
  let b := {b with m20 :=  gd_3x3_det r3c2 r3c1 r3c0 r2c2 r2c1 r2c0 r0c2 r0c1 r0c0}
  let b := {b with m30 := -gd_3x3_det r3c2 r3c1 r3c0 r2c2 r2c1 r2c0 r1c2 r1c1 r1c0}
  let b := {b with m01 := -gd_3x3_det r2c3 r2c1 r2c0 r1c3 r1c1 r1c0 r0c3 r0c1 r0c0}
  let b := {b with m11 :=  gd_3x3_det r3c3 r3c1 r3c0 r1c3 r1c1 r1c0 r0c3 r0c1 r0c0}
  let b := {b with m21 := -gd_3x3_det r3c3 r3c1 r3c0 r2c3 r2c1 r2c0 r0c3 r0c1 r0c0}
  let b := {b with m31 :=  gd_3x3_det r3c3 r3c1 r3c0 r2c3 r2c1 r2c0 r1c3 r1c1 r1c0}
  let b := {b with m02 :=  gd_3x3_det r2c3 r2c2 r2c0 r1c3 r1c2 r1c0 r0c3 r0c2 r0c0}
  let b := {b with m12 := -gd_3x3_det r3c3 r3c2 r3c0 r1c3 r1c2 r1c0 r0c3 r0c2 r0c0}
  let b := {b with m22 :=  gd_3x3_det r3c3 r3c2 r3c0 r2c3 r2c2 r2c0 r0c3 r0c2 r0c0}
  let b := {b with m32 := -gd_3x3_det r3c3 r3c2 r3c0 r2c3 r2c2 r2c0 r1c3 r1c2 r1c0}
  let b := {b with m03 := -gd_3x3_det r2c3 r2c2 r2c1 r1c3 r1c2 r1c1 r0c3 r0c2 r0c1}
  let b := {b with m13 :=  gd_3x3_det r3c3 r3c2 r3c1 r1c3 r1c2 r1c1 r0c3 r0c2 r0c1}
  let b := {b with m23 := -gd_3x3_det r3c3 r3c2 r3c1 r2c3 r2c2 r2c1 r0c3 r0c2 r0c1}
  let b := {b with m33 :=  gd_3x3_det r3c3 r3c2 r3c1 r2c3 r2c2 r2c1 r1c3 r1c2 r1c1}
  b

/-- `gd_inverse_mat4f` executed with `dst` aliasing `src`: the adjugate is
computed in place into the shared buffer, the determinant is then read from
that buffer (which now holds the adjugate), and the 16 divisions update the
buffer cell by cell. -/
def gd_inverse_mat4f_aliased (m : Mat4f) : Option Mat4f :=
  let b := gd_adjunct_mat4f_aliased m
  let determinant := gd_mat4f_det b
  if absf determinant < invThreshold then none
  else
    let b := {b with m00 := b.m00 / determinant}
    let b := {b with m01 := b.m01 / determinant}
    let b := {b with m02 := b.m02 / determinant}
    let b := {b with m03 := b.m03 / determinant}
    let b := {b with m10 := b.m10 / determinant}
    let b := {b with m11 := b.m11 / determinant}
    let b := {b with m12 := b.m12 / determinant}
    let b := {b with m13 := b.m13 / determinant}
    let b := {b with m20 := b.m20 / determinant}
    let b := {b with m21 := b.m21 / determinant}
    let b := {b with m22 := b.m22 / determinant}
    let b := {b with m23 := b.m23 / determinant}
    let b := {b with m30 := b.m30 / determinant}
    let b := {b with m31 := b.m31 / determinant}
    let b := {b with m32 := b.m32 / determinant}
    let b := {b with m33 := b.m33 / determinant}
    some b

/-! ## Spec-side definitions (for refinement comparisons)

These follow the words of the specification, to be compared with the
definitions translated from the source. -/

/-- Follows the words of claim C3 / the spec's `shiftRowsUp`: rows 1..3 move
up by one position (columns unchanged), row 0's FIRST THREE components
become the new row 3, and the last column is reset to `(0,0,0,1)`. -/
def shift_mat_up_claimed (mtx : Mat4f) : Mat4f :=
  ⟨mtx.m10, mtx.m11, mtx.m12, 0,
   mtx.m20, mtx.m21, mtx.m22, 0,
   mtx.m30, mtx.m31, mtx.m32, 0,
   mtx.m00, mtx.m01, mtx.m02, 1⟩

/-- Follows the words of claim C7: the Rodrigues closed form
`R = (1-c)·axis·axisᵀ + c·I + s·[axis]×` written out entrywise
(`[axis]×` the standard cross-product matrix), with homogeneous last
row and column. -/
def rot_matrix_claimed (a : GdVec3f) (s c : ℚ) : Mat4f :=
  ⟨(1 - c) * a.x * a.x + c,     (1 - c) * a.x * a.y - s * a.z, (1 - c) * a.x * a.z + s * a.y, 0,
   (1 - c) * a.y * a.x + s * a.z, (1 - c) * a.y * a.y + c,     (1 - c) * a.y * a.z - s * a.x, 0,
   (1 - c) * a.z * a.x - s * a.y, (1 - c) * a.z * a.y + s * a.x, (1 - c) * a.z * a.z + c,     0,
   0, 0, 0, 1⟩

/-- The form the 3x3 block of `gd_create_rot_matrix` actually has: the
TRANSPOSE of the claimed Rodrigues form, i.e.
`R = (1-c)·axis·axisᵀ + c·I - s·[axis]×`. -/
def rot_matrix_transposed (a : GdVec3f) (s c : ℚ) : Mat4f :=
  ⟨(1 - c) * a.x * a.x + c,     (1 - c) * a.x * a.y + s * a.z, (1 - c) * a.x * a.z - s * a.y, 0,
   (1 - c) * a.y * a.x - s * a.z, (1 - c) * a.y * a.y + c,     (1 - c) * a.y * a.z + s * a.x, 0,
   (1 - c) * a.z * a.x + s * a.y, (1 - c) * a.z * a.y - s * a.x, (1 - c) * a.z * a.z + c,     0,
   0, 0, 0, 1⟩

/-! ## Concrete inputs used by counterexamples and witnesses -/

/-- The all-zeros matrix (the spec's canonical singular input). -/
def zeroMat4 : Mat4f := ⟨0, 0, 0, 0, 0, 0, 0, 0, 0, 0, 0, 0, 0, 0, 0, 0⟩

/-- Twice the identity: a non-singular matrix with determinant 16. -/
def twoIdMat4 : Mat4f := ⟨2, 0, 0, 0, 0, 2, 0, 0, 0, 0, 2, 0, 0, 0, 0, 2⟩

/-- What `gd_inverse_mat4f` returns on `twoIdMat4`: the adjugate `8·I`
divided by `det(8·I) = 4096`. -/
def twoIdMat4Inv : Mat4f :=
  ⟨1/512, 0, 0, 0, 0, 1/512, 0, 0, 0, 0, 1/512, 0, 0, 0, 0, 1/512⟩

/-- `diag(1/4)`: determinant `1/256 ≥ 1e-5`, yet its adjugate has
determinant `(1/256)³ < 1e-5`. -/
def quarterIdMat4 : Mat4f :=
  ⟨1/4, 0, 0, 0, 0, 1/4, 0, 0, 0, 0, 1/4, 0, 0, 0, 0, 1/4⟩

/-- A matrix with 16 distinct entries. -/
def seqMat4 : Mat4f := ⟨1, 2, 3, 4, 5, 6, 7, 8, 9, 10, 11, 12, 13, 14, 15, 16⟩

/-- Identity block with a nonzero translation row `(1,2,3)`. -/
def transMat4 : Mat4f := ⟨1, 0, 0, 0, 0, 1, 0, 0, 0, 0, 1, 0, 1, 2, 3, 1⟩

/-- An initial output buffer whose row 0 is `(1,7,0,0)`: entry `[0][1]` is
the nonzero leftover that `gd_create_quat_rot_mat` never clears. -/
def dirtyMat4 : Mat4f := ⟨1, 7, 0, 0, 0, 1, 0, 0, 0, 0, 1, 0, 0, 0, 0, 1⟩

/-- Concrete trig adapter stand-ins for counterexamples/witnesses. -/
def d2aZero : ℚ → ℤ := fun _ => 0

/-- See `d2aZero`. -/
def sinsOne : ℤ → ℚ := fun _ => 1

/-- See `d2aZero`. -/
def cossZero : ℤ → ℚ := fun _ => 0

/-! ## Helper lemmas -/

/-- `gd_normalize_vec3f` on a vector of nonzero squared magnitude: each
component is scaled by `1 / sqrtf(mag)` and `TRUE` is returned. -/
theorem normalize_nonzero_case (sqrtf : ℚ → ℚ) (v : GdVec3f) (hm : sqMag v ≠ 0) :
    gd_normalize_vec3f sqrtf v =
      (⟨v.x * (1 / sqrtf (sqMag v)), v.y * (1 / sqrtf (sqMag v)),
        v.z * (1 / sqrtf (sqMag v))⟩, true) := by
  unfold gd_normalize_vec3f sqMag at *
  rw [if_neg hm]

/-- On a vector of nonzero squared magnitude, with a square root that is
exact on that squared magnitude, `gd_normalize_vec3f` produces a vector of
squared magnitude exactly 1. -/
theorem sqMag_normalize_eq_one (sqrtf : ℚ → ℚ) (v : GdVec3f)
    (hm : sqMag v ≠ 0)
    (hs : sqrtf (sqMag v) * sqrtf (sqMag v) = sqMag v) :
    sqMag (gd_normalize_vec3f sqrtf v).1 = 1 := by
  have hs0 : sqrtf (sqMag v) ≠ 0 := by
    intro h
    exact hm (by rw [← hs, h, mul_zero])
  rw [normalize_nonzero_case sqrtf v hm]
  unfold sqMag sqr at *
  field_simp
  linear_combination -hs

/-- `gd_normalize_vec3f` on a zero-squared-magnitude vector: zeroes the
vector and returns `FALSE`, with no epsilon tolerance. -/
theorem normalize_zero_case (sqrtf : ℚ → ℚ) (v : GdVec3f) (hm : sqMag v = 0) :
    gd_normalize_vec3f sqrtf v = (⟨0, 0, 0⟩, false) := by
  unfold gd_normalize_vec3f sqMag at *
  rw [if_pos hm]

/-- "Divides every one of the 16 entries by `d`" (the normal-path epilogue
of `gd_inverse_mat4f`). -/
def mat4f_entrywise_div (m : Mat4f) (d : ℚ) : Mat4f :=
  ⟨m.m00 / d, m.m01 / d, m.m02 / d, m.m03 / d,
   m.m10 / d, m.m11 / d, m.m12 / d, m.m13 / d,
   m.m20 / d, m.m21 / d, m.m22 / d, m.m23 / d,
   m.m30 / d, m.m31 / d, m.m32 / d, m.m33 / d⟩

/-! ## Claim theorems -/

/-- C3 (counterexample): on a matrix with 16 distinct entries,
`gd_shift_mat_up` does NOT act as the claim describes (row 0's first three
components to row 3, rows 1..3 shifted up with columns unchanged, last
column reset): the two results differ. -/
theorem C3_counterexample :
    gd_shift_mat_up seqMat4 ≠ shift_mat_up_claimed seqMat4 := by
  norm_num [gd_shift_mat_up, shift_mat_up_claimed, seqMat4]

/-- C3 (amended): for every matrix, `gd_shift_mat_up` moves the trailing
3x3 block (rows 1..3, columns 1..3) up AND left by one position into the
leading 3x3 block, moves row 0's LAST three components (columns 1..3) into
the first three slots of the new row 3, and resets the last column to
`(0,0,0,1)`. -/
theorem C3_shift_amended : ∀ m : Mat4f,
    gd_shift_mat_up m =
      ⟨m.m11, m.m12, m.m13, 0,
       m.m21, m.m22, m.m23, 0,
       m.m31, m.m32, m.m33, 0,
       m.m01, m.m02, m.m03, 1⟩ :=
  fun _ => rfl

/-- C4 (counterexample): with quaternion `(1,0,0,0)` and an initial output
matrix whose entry `[0][1]` is 7, the pre-shift matrix does NOT have first
row `(1,0,0,0)` (entry `[0][1]` is still 7), and after `gd_shift_mat_up`
the final matrix's last row is NOT the homogeneous `(0,0,0,1)`: its first
entry is 7. -/
theorem C4_counterexample :
    (gd_quat_rot_mat_preshift 1 0 0 0 dirtyMat4).m01 = 7
    ∧ (gd_create_quat_rot_mat 1 0 0 0 dirtyMat4).m30 = 7
    ∧ ((7 : ℚ) = 0 → False) := by
  refine ⟨rfl, rfl, by norm_num⟩

/-- C4 (amended): for every quaternion and initial matrix contents,
`gd_create_quat_rot_mat` forces only entry `[0][0]` to 1 before the shift
while entries `[0][1..3]` keep their initial contents; consequently, after
`gd_shift_mat_up` the last COLUMN is always `(0,0,0,1)`, but the last ROW is
`(mtx₀[0][1], mtx₀[0][2], mtx₀[0][3], 1)` — the correct homogeneous row only
when those initial entries are zero. -/
theorem C4_amended : ∀ q0 q1 q2 q3 : ℚ, ∀ mtx : Mat4f,
    (gd_quat_rot_mat_preshift q0 q1 q2 q3 mtx).m00 = 1
    ∧ (gd_quat_rot_mat_preshift q0 q1 q2 q3 mtx).m01 = mtx.m01
    ∧ (gd_quat_rot_mat_preshift q0 q1 q2 q3 mtx).m02 = mtx.m02
    ∧ (gd_quat_rot_mat_preshift q0 q1 q2 q3 mtx).m03 = mtx.m03
    ∧ (gd_create_quat_rot_mat q0 q1 q2 q3 mtx).m03 = 0
    ∧ (gd_create_quat_rot_mat q0 q1 q2 q3 mtx).m13 = 0
    ∧ (gd_create_quat_rot_mat q0 q1 q2 q3 mtx).m23 = 0
    ∧ (gd_create_quat_rot_mat q0 q1 q2 q3 mtx).m33 = 1
    ∧ (gd_create_quat_rot_mat q0 q1 q2 q3 mtx).m30 = mtx.m01
    ∧ (gd_create_quat_rot_mat q0 q1 q2 q3 mtx).m31 = mtx.m02
    ∧ (gd_create_quat_rot_mat q0 q1 q2 q3 mtx).m32 = mtx.m03 :=
  fun _ _ _ _ _ =>
    ⟨rfl, rfl, rfl, rfl, rfl, rfl, rfl, rfl, rfl, rfl, rfl⟩

/-- C5: `gd_inverse_mat4f` computes the adjugate, takes the determinant OF
THAT ADJUGATE, reaches the fatal path (`none`) iff its absolute value is
below `1e-5`, and otherwise divides all 16 adjugate entries by it.  The
closing conjuncts exhibit `diag(1/4)`: its own determinant `1/256` is well
above the threshold, yet the fatal path is reached — the threshold really
tests the adjugate's determinant, not the original's. -/
theorem C5_inverse_structure :
    (∀ M : Mat4f,
      (gd_inverse_mat4f M = none ↔
        absf (gd_mat4f_det (gd_adjunct_mat4f M)) < invThreshold)
      ∧ ∀ D, gd_inverse_mat4f M = some D →
          D = mat4f_entrywise_div (gd_adjunct_mat4f M)
                (gd_mat4f_det (gd_adjunct_mat4f M)))
    ∧ gd_mat4f_det quarterIdMat4 = 1 / 256
    ∧ invThreshold ≤ absf (gd_mat4f_det quarterIdMat4)
    ∧ gd_inverse_mat4f quarterIdMat4 = none := by
  have hq : gd_mat4f_det quarterIdMat4 = 1 / 256 := by
    norm_num [gd_mat4f_det, gd_3x3_det, gd_2x2_det, quarterIdMat4]
  have habs : invThreshold ≤ absf (gd_mat4f_det quarterIdMat4) := by
    rw [hq, absf, abs_of_nonneg (by norm_num : (0:ℚ) ≤ 1 / 256)]
    norm_num [invThreshold]
  refine ⟨?_, hq, habs, ?_⟩
  case refine_2 =>
    have hqadj : gd_mat4f_det (gd_adjunct_mat4f quarterIdMat4) = 1 / 16777216 := by
      norm_num [gd_mat4f_det, gd_adjunct_mat4f, gd_3x3_det, gd_2x2_det, quarterIdMat4]
    have hadj : absf (gd_mat4f_det (gd_adjunct_mat4f quarterIdMat4)) < invThreshold := by
      rw [hqadj, absf, abs_of_nonneg (by norm_num : (0:ℚ) ≤ 1 / 16777216)]
      norm_num [invThreshold]
    simp only [gd_inverse_mat4f]
    rw [if_pos hadj]
  intro M
  constructor
  · simp only [gd_inverse_mat4f]
    by_cases h : absf (gd_mat4f_det (gd_adjunct_mat4f M)) < invThreshold
    · rw [if_pos h]
      simp [h]
    · rw [if_neg h]
      simp [h]
  · intro D hD
    simp only [gd_inverse_mat4f] at hD
    by_cases h : absf (gd_mat4f_det (gd_adjunct_mat4f M)) < invThreshold
    · rw [if_pos h] at hD
      exact absurd hD (by simp)
    · rw [if_neg h] at hD
      rw [← Option.some.inj hD]
      rfl

/-- C5 (witness): the normal path on the identity matrix — the returned
inverse is the adjugate of `I` divided entrywise by its determinant. -/
theorem C5_inverse_structure_witness :
    gd_set_identity_mat4 =
      mat4f_entrywise_div (gd_adjunct_mat4f gd_set_identity_mat4)
        (gd_mat4f_det (gd_adjunct_mat4f gd_set_identity_mat4)) :=
  (C5_inverse_structure.1 gd_set_identity_mat4).2 gd_set_identity_mat4 (by
    norm_num [gd_inverse_mat4f, gd_adjunct_mat4f, gd_mat4f_det, gd_3x3_det, gd_2x2_det,
      gd_set_identity_mat4, absf, invThreshold])

/-- C6: `gd_normalize_vec3f` on exactly-zero squared magnitude zeroes the
vector and returns failure (exact test, no epsilon); on nonzero squared
magnitude it scales each component by `1/sqrt(mag²)`, returns success, and
(for a square root exact on that input) the result has squared magnitude
exactly 1. -/
theorem C6_normalize :
    (∀ (sqrtf : ℚ → ℚ) (v : GdVec3f), sqMag v = 0 →
      gd_normalize_vec3f sqrtf v = (⟨0, 0, 0⟩, false))
    ∧ (∀ (sqrtf : ℚ → ℚ) (v : GdVec3f), sqMag v ≠ 0 →
        sqrtf (sqMag v) * sqrtf (sqMag v) = sqMag v →
        gd_normalize_vec3f sqrtf v =
          (⟨v.x * (1 / sqrtf (sqMag v)), v.y * (1 / sqrtf (sqMag v)),
            v.z * (1 / sqrtf (sqMag v))⟩, true)
        ∧ sqMag (gd_normalize_vec3f sqrtf v).1 = 1) :=
  ⟨fun sqrtf v hm => normalize_zero_case sqrtf v hm,
   fun sqrtf v hm hs =>
     ⟨normalize_nonzero_case sqrtf v hm, sqMag_normalize_eq_one sqrtf v hm hs⟩⟩

/-- An exact square root at 9 (and at 0), for concrete witnesses. -/
def sqrtNine : ℚ → ℚ := fun q => if q = 9 then 3 else 0

/-- C6 (witness): the zero vector fails and is zeroed; `(3,0,0)` normalizes
to squared magnitude 1. -/
theorem C6_normalize_witness :
    gd_normalize_vec3f sqrtNine ⟨0, 0, 0⟩ = (⟨0, 0, 0⟩, false)
    ∧ sqMag (gd_normalize_vec3f sqrtNine ⟨3, 0, 0⟩).1 = 1 :=
  ⟨C6_normalize.1 sqrtNine ⟨0, 0, 0⟩ (by norm_num [sqMag, sqr]),
   (C6_normalize.2 sqrtNine ⟨3, 0, 0⟩ (by norm_num [sqMag, sqr])
     (by norm_num [sqMag, sqr, sqrtNine])).2⟩

set_option maxHeartbeats 1600000 in
/-- C10: executing `gd_adjunct_mat4f` (and `gd_inverse_mat4f`) with the
destination buffer aliasing the source — all 16 reads into the local
`struct InvMat4` first, then the sequential writes — produces exactly the
same matrix as the two-buffer execution, for every input matrix. -/
theorem C10_aliasing : ∀ m : Mat4f,
    gd_adjunct_mat4f_aliased m = gd_adjunct_mat4f m
    ∧ gd_inverse_mat4f_aliased m = gd_inverse_mat4f m :=
  fun _ => ⟨rfl, rfl⟩

set_option maxHeartbeats 2000000 in
/-- The classical adjugate identity for the source's cofactor layout:
`M · gd_adjunct_mat4f(M)` is the identity scaled by `gd_mat4f_det(M)` —
a pure polynomial fact about the translated definitions. -/
theorem gd_mult_adjunct_eq_det_smul (M : Mat4f) :
    gd_mult_mat4f M (gd_adjunct_mat4f M) =
      ⟨gd_mat4f_det M, 0, 0, 0,
       0, gd_mat4f_det M, 0, 0,
       0, 0, gd_mat4f_det M, 0,
       0, 0, 0, gd_mat4f_det M⟩ := by
  ext <;>
    · simp only [gd_mult_mat4f, gd_copy_mat4f, gd_mat4_dot_prod, gd_adjunct_mat4f,
        gd_mat4f_det, gd_3x3_det, gd_2x2_det]
      ring

/-- Multiplying by an entrywise-divided matrix divides the product
entrywise. -/
theorem gd_mult_entrywise_div (M A : Mat4f) (d : ℚ) :
    gd_mult_mat4f M (mat4f_entrywise_div A d) =
      mat4f_entrywise_div (gd_mult_mat4f M A) d := by
  ext <;>
    · simp only [gd_mult_mat4f, gd_copy_mat4f, gd_mat4_dot_prod, mat4f_entrywise_div]
      ring

/-- C1 (counterexample): `2·I` is non-singular (every determinant in sight is
far above the `1e-5` threshold) and `gd_inverse_mat4f` takes its normal path,
returning `(1/512)·I` — but the product `2·I · (1/512)·I = (1/256)·I` is NOT
the identity: the round-trip fails because the division is by
`det(adjugate) = det(M)³`, not by `det(M)`. -/
theorem C1_counterexample :
    gd_inverse_mat4f twoIdMat4 = some twoIdMat4Inv
    ∧ gd_mult_mat4f twoIdMat4 twoIdMat4Inv ≠ gd_set_identity_mat4 := by
  constructor
  · have hdet : gd_mat4f_det (gd_adjunct_mat4f twoIdMat4) = 4096 := by
      norm_num [gd_mat4f_det, gd_adjunct_mat4f, gd_3x3_det, gd_2x2_det, twoIdMat4]
    have hge : ¬ absf (gd_mat4f_det (gd_adjunct_mat4f twoIdMat4)) < invThreshold := by
      rw [hdet, absf, abs_of_nonneg (by norm_num : (0:ℚ) ≤ 4096)]
      norm_num [invThreshold]
    simp only [gd_inverse_mat4f]
    rw [if_neg hge]
    norm_num [gd_adjunct_mat4f, gd_mat4f_det, gd_3x3_det, gd_2x2_det, twoIdMat4, twoIdMat4Inv]
  · norm_num [gd_mult_mat4f, gd_copy_mat4f, gd_mat4_dot_prod, twoIdMat4, twoIdMat4Inv,
      gd_set_identity_mat4]

/-- C1 (amended): whenever `gd_inverse_mat4f` returns normally AND the
determinant of the adjugate happens to equal the determinant of the input
(which holds exactly when `det(M) ∈ {0, 1, -1}`, e.g. for every rigid
transform), the round-trip `gd_mult_mat4f M (inverse M)` is exactly the
identity; and on the all-zeros (singular) matrix `gd_inverse_mat4f` reaches
the fatal path.  In general the product is the identity scaled by
`det(M) / det(adjugate(M)) = det(M)⁻²`. -/
theorem C1_roundtrip_amended :
    (∀ M D : Mat4f, gd_inverse_mat4f M = some D →
        gd_mat4f_det (gd_adjunct_mat4f M) = gd_mat4f_det M →
        gd_mult_mat4f M D = gd_set_identity_mat4)
    ∧ gd_inverse_mat4f zeroMat4 = none := by
  constructor
  · intro M D hD hdet
    have hthr : ¬ absf (gd_mat4f_det (gd_adjunct_mat4f M)) < invThreshold := by
      intro h
      simp only [gd_inverse_mat4f] at hD
      rw [if_pos h] at hD
      exact Option.noConfusion hD
    have hne : gd_mat4f_det M ≠ 0 := by
      intro h0
      apply hthr
      rw [hdet, h0, absf]
      norm_num [invThreshold]
    have hD' : D = mat4f_entrywise_div (gd_adjunct_mat4f M)
        (gd_mat4f_det (gd_adjunct_mat4f M)) := by
      simp only [gd_inverse_mat4f] at hD
      rw [if_neg hthr] at hD
      rw [← Option.some.inj hD]
      rfl
    subst hD'
    rw [hdet, gd_mult_entrywise_div, gd_mult_adjunct_eq_det_smul]
    ext <;> simp [mat4f_entrywise_div, gd_set_identity_mat4, div_self hne]
  · simp only [gd_inverse_mat4f]
    rw [if_pos (by norm_num [gd_mat4f_det, gd_adjunct_mat4f, gd_3x3_det, gd_2x2_det,
      zeroMat4, absf, invThreshold])]

/-- C1 (witness): at the identity matrix the normal path is taken, the
adjugate's determinant equals the matrix determinant, and the round-trip
really yields the identity. -/
theorem C1_roundtrip_amended_witness :
    gd_mult_mat4f gd_set_identity_mat4 gd_set_identity_mat4 = gd_set_identity_mat4 :=
  C1_roundtrip_amended.1 gd_set_identity_mat4 gd_set_identity_mat4
    (by norm_num [gd_inverse_mat4f, gd_adjunct_mat4f, gd_mat4f_det, gd_3x3_det,
      gd_2x2_det, gd_set_identity_mat4, absf, invThreshold])
    (by norm_num [gd_adjunct_mat4f, gd_mat4f_det, gd_3x3_det, gd_2x2_det,
      gd_set_identity_mat4])

/-- C2 (counterexample): with concrete trig stand-ins (`sins = 1`,
`coss = 0`) and a matrix with a nonzero translation row, `gd_absrot_mat4`
about the x axis does NOT produce the left product `rotation · mtx` claimed:
the source multiplies with `mtx` as the left factor. -/
theorem C2_counterexample :
    gd_absrot_mat4 d2aZero sinsOne cossZero GD_X_AXIS 90 transMat4
      ≠ some (gd_mult_mat4f
          (gd_create_rot_mat_angular d2aZero sinsOne cossZero ⟨1, 0, 0⟩ (90 / 2))
          transMat4) := by
  norm_num [gd_absrot_mat4, GD_X_AXIS, GD_Y_AXIS, GD_Z_AXIS, gd_create_rot_mat_angular,
    gd_create_rot_matrix, d2aZero, sinsOne, cossZero, gd_mult_mat4f, gd_copy_mat4f,
    gd_mat4_dot_prod, transMat4, sqr]

/-- C2 (amended): for each recognized axis selector, `gd_absrot_mat4` builds
the unit basis vector for that principal axis, builds the rotation matrix
through the half-angle builder at `ang / 2`, and replaces `mtx` with the
product `mtx · rotation` (`mtx` is the LEFT factor of `gd_mult_mat4f`, the
rotation the right factor; in the array's row-major indexing this is right
multiplication by the rotation).  Every unrecognized selector reaches the
fatal error reporter and no result is produced. -/
theorem C2_absrot_amended : ∀ (d2a : ℚ → ℤ) (sins coss : ℤ → ℚ) (ang : ℚ) (mtx : Mat4f),
    (gd_absrot_mat4 d2a sins coss GD_X_AXIS ang mtx
      = some (gd_mult_mat4f mtx (gd_create_rot_mat_angular d2a sins coss ⟨1, 0, 0⟩ (ang / 2))))
    ∧ (gd_absrot_mat4 d2a sins coss GD_Y_AXIS ang mtx
      = some (gd_mult_mat4f mtx (gd_create_rot_mat_angular d2a sins coss ⟨0, 1, 0⟩ (ang / 2))))
    ∧ (gd_absrot_mat4 d2a sins coss GD_Z_AXIS ang mtx
      = some (gd_mult_mat4f mtx (gd_create_rot_mat_angular d2a sins coss ⟨0, 0, 1⟩ (ang / 2))))
    ∧ (∀ axisnum : ℤ, axisnum ≠ GD_X_AXIS → axisnum ≠ GD_Y_AXIS → axisnum ≠ GD_Z_AXIS →
        gd_absrot_mat4 d2a sins coss axisnum ang mtx = none) := by
  intro d2a sins coss ang mtx
  refine ⟨?_, ?_, ?_, ?_⟩
  · simp [gd_absrot_mat4, GD_X_AXIS, GD_Y_AXIS, GD_Z_AXIS]
  · simp [gd_absrot_mat4, GD_X_AXIS, GD_Y_AXIS, GD_Z_AXIS]
  · simp [gd_absrot_mat4, GD_X_AXIS, GD_Y_AXIS, GD_Z_AXIS]
  · intro axisnum hx hy hz
    simp [gd_absrot_mat4, if_neg hx, if_neg hy, if_neg hz]

/-- C2 (witness): the recognized-x-axis equation and the fatal default case,
at concrete inputs (`axisnum = 5` is none of the three selectors). -/
theorem C2_absrot_amended_witness :
    gd_absrot_mat4 d2aZero sinsOne cossZero GD_X_AXIS 90 transMat4
      = some (gd_mult_mat4f transMat4
          (gd_create_rot_mat_angular d2aZero sinsOne cossZero ⟨1, 0, 0⟩ (90 / 2)))
    ∧ gd_absrot_mat4 d2aZero sinsOne cossZero 5 90 transMat4 = none :=
  ⟨(C2_absrot_amended d2aZero sinsOne cossZero 90 transMat4).1,
   (C2_absrot_amended d2aZero sinsOne cossZero 90 transMat4).2.2.2 5
     (by norm_num [GD_X_AXIS]) (by norm_num [GD_Y_AXIS]) (by norm_num [GD_Z_AXIS])⟩

/-- C7 (counterexample): at axis `(1,0,0)`, `s = 1`, `c = 0`, the matrix
built by `gd_create_rot_matrix` is not the claimed Rodrigues form
`(1-c)·a·aᵀ + c·I + s·[a]×` — entry `[1][2]` is `+1` in the code's matrix
but `-1` in the claimed form. -/
theorem C7_counterexample :
    gd_create_rot_matrix ⟨1, 0, 0⟩ 1 0 ≠ rot_matrix_claimed ⟨1, 0, 0⟩ 1 0 := by
  norm_num [gd_create_rot_matrix, rot_matrix_claimed, sqr]

/-- C7 (amended): for every axis vector and sine/cosine pair, the 3x3 block
of `gd_create_rot_matrix` equals the TRANSPOSE of the claimed closed form,
`R = (1-c)·axis·axisᵀ + c·I - s·[axis]×`, with homogeneous last row and
column; and `gd_create_rot_mat_angular` obtains the trig pair by passing
`deg * 2` through the degree-to-native-angle adapter before the
sine/cosine lookup and forwards to the builder. -/
theorem C7_rot_matrix_amended :
    (∀ (vec : GdVec3f) (s c : ℚ),
      gd_create_rot_matrix vec s c = rot_matrix_transposed vec s c)
    ∧ (∀ (d2a : ℚ → ℤ) (sins coss : ℤ → ℚ) (vec : GdVec3f) (deg : ℚ),
        gd_create_rot_mat_angular d2a sins coss vec deg
          = gd_create_rot_matrix vec (sins (d2a (deg * 2))) (coss (d2a (deg * 2)))) := by
  constructor
  · intro vec s c
    ext <;> simp only [gd_create_rot_matrix, rot_matrix_transposed, sqr] <;> ring
  · intro d2a sins coss vec deg
    rfl

/-- A square root stand-in that is zero everywhere; the counterexample path
never consults it (the zero vector short-circuits in `gd_normalize_vec3f`). -/
def sqrtZero : ℚ → ℚ := fun _ => 0

/-- An exact square root at 1 (and at 0), for concrete witnesses. -/
def sqrtOne : ℚ → ℚ := fun q => if q = 1 then 1 else 0

/-- An exact square root at 25 (and at 0), for concrete witnesses. -/
def sqrtTwentyFive : ℚ → ℚ := fun q => if q = 25 then 5 else 0

/-- C8 (counterexample): with `eye = target = (0,0,0)` the raw direction's
component-sum is 0, which is outside `[10, 10000]`, so the rescale branch is
taken — but the result is the zero vector, of squared magnitude 0, not
magnitude 10000: the "rescales to magnitude 10000" part of the claim fails
for a zero baseline. -/
theorem C8_counterexample :
    (absf (gd_lookat_dir 0 0 0 0 0 0).z + absf (gd_lookat_dir 0 0 0 0 0 0).y
        + absf (gd_lookat_dir 0 0 0 0 0 0).x < 10)
    ∧ gd_lookat_rescale sqrtZero (gd_lookat_dir 0 0 0 0 0 0) = ⟨0, 0, 0⟩
    ∧ sqMag (gd_lookat_rescale sqrtZero (gd_lookat_dir 0 0 0 0 0 0))
        ≠ 10000 * 10000 := by
  norm_num [gd_lookat_dir, gd_lookat_rescale, gd_normalize_vec3f, sqrtZero, absf,
    sqMag, sqr]

/-- C8 (amended): `gd_mat4f_lookat`'s raw direction uses the permuted
assignment `d.x = zTo - zFrom`, `d.y = yTo - yFrom`, `d.z = xTo - xFrom`;
the renormalize-and-scale-by-10000 step runs exactly when the sum of
absolute components lies outside `[10, 10000]` (the raw direction is used
unchanged when the sum is inside); and the rescaled result has magnitude
10000 provided the raw direction is nonzero (with an exact square root) —
a zero raw direction (eye = target) stays the zero vector. -/
theorem C8_lookat_dir_amended :
    (∀ xFrom yFrom zFrom xTo yTo zTo : ℚ,
      gd_lookat_dir xFrom yFrom zFrom xTo yTo zTo
        = ⟨zTo - zFrom, yTo - yFrom, xTo - xFrom⟩)
    ∧ (∀ (sqrtf : ℚ → ℚ) (d : GdVec3f),
        ¬(absf d.z + absf d.y + absf d.x > 10000 ∨ absf d.z + absf d.y + absf d.x < 10) →
        gd_lookat_rescale sqrtf d = d)
    ∧ (∀ (sqrtf : ℚ → ℚ) (d : GdVec3f),
        (absf d.z + absf d.y + absf d.x > 10000 ∨ absf d.z + absf d.y + absf d.x < 10) →
        gd_lookat_rescale sqrtf d =
          ⟨(gd_normalize_vec3f sqrtf d).1.x * 10000,
           (gd_normalize_vec3f sqrtf d).1.y * 10000,
           (gd_normalize_vec3f sqrtf d).1.z * 10000⟩)
    ∧ (∀ (sqrtf : ℚ → ℚ) (d : GdVec3f),
        (absf d.z + absf d.y + absf d.x > 10000 ∨ absf d.z + absf d.y + absf d.x < 10) →
        sqMag d ≠ 0 → sqrtf (sqMag d) * sqrtf (sqMag d) = sqMag d →
        sqMag (gd_lookat_rescale sqrtf d) = 10000 * 10000) := by
  have h2 : ∀ (sqrtf : ℚ → ℚ) (d : GdVec3f),
      ¬(absf d.z + absf d.y + absf d.x > 10000 ∨ absf d.z + absf d.y + absf d.x < 10) →
      gd_lookat_rescale sqrtf d = d := by
    intro sqrtf d h
    simp only [gd_lookat_rescale]
    rw [if_neg h]
  have h3 : ∀ (sqrtf : ℚ → ℚ) (d : GdVec3f),
      (absf d.z + absf d.y + absf d.x > 10000 ∨ absf d.z + absf d.y + absf d.x < 10) →
      gd_lookat_rescale sqrtf d =
        ⟨(gd_normalize_vec3f sqrtf d).1.x * 10000,
         (gd_normalize_vec3f sqrtf d).1.y * 10000,
         (gd_normalize_vec3f sqrtf d).1.z * 10000⟩ := by
    intro sqrtf d h
    simp only [gd_lookat_rescale]
    rw [if_pos h]
  refine ⟨fun _ _ _ _ _ _ => rfl, h2, h3, ?_⟩
  intro sqrtf d hout hm hs
  rw [h3 sqrtf d hout]
  have hone := sqMag_normalize_eq_one sqrtf d hm hs
  have hsplit : sqMag ⟨(gd_normalize_vec3f sqrtf d).1.x * 10000,
      (gd_normalize_vec3f sqrtf d).1.y * 10000,
      (gd_normalize_vec3f sqrtf d).1.z * 10000⟩
      = sqMag (gd_normalize_vec3f sqrtf d).1 * (10000 * 10000) := by
    simp only [sqMag, sqr]
    ring
  rw [hsplit, hone, one_mul]

/-- C8 (witness): a short baseline `(1,0,0)` (sum 1, outside the interval)
rescales to squared magnitude `10000²`; the in-range direction `(0,10,5)`
(sum 15) is used unrescaled. -/
theorem C8_lookat_dir_amended_witness :
    sqMag (gd_lookat_rescale sqrtOne ⟨1, 0, 0⟩) = 10000 * 10000
    ∧ gd_lookat_rescale sqrtOne ⟨0, 10, 5⟩ = ⟨0, 10, 5⟩ :=
  ⟨C8_lookat_dir_amended.2.2.2 sqrtOne ⟨1, 0, 0⟩
      (Or.inr (by norm_num [absf])) (by norm_num [sqMag, sqr])
      (by norm_num [sqMag, sqr, sqrtOne]),
   C8_lookat_dir_amended.2.1 sqrtOne ⟨0, 10, 5⟩ (by norm_num [absf])⟩

/-- C9: for every purely vertical direction `(0, y, 0)` with `y ≠ 0` (and a
square root exact at 0), `gd_create_origin_lookat` lands in the `hMag == 0`
fallback branch and returns the fixed hardcoded basis matrix (homogeneous
last row and column), not a basis computed from `hMag`. -/
theorem C9_origin_lookat_vertical : ∀ (sqrtf : ℚ → ℚ) (y : ℚ),
    sqrtf 0 = 0 → y ≠ 0 →
    gd_create_origin_lookat sqrtf ⟨0, y, 0⟩ =
      ⟨0, 0, 1, 0,
       1, 0, 0, 0,
       0, 1, 0, 0,
       0, 0, 0, 1⟩ := by
  intro sqrtf y h0 hy
  have hm : sqMag (⟨0, y, 0⟩ : GdVec3f) ≠ 0 := by
    simpa [sqMag, sqr] using mul_self_ne_zero.mpr hy
  simp only [gd_create_origin_lookat]
  rw [show (⟨(⟨0, y, 0⟩ : GdVec3f).x, (⟨0, y, 0⟩ : GdVec3f).y,
      (⟨0, y, 0⟩ : GdVec3f).z⟩ : GdVec3f) = ⟨0, y, 0⟩ from rfl]
  rw [normalize_nonzero_case sqrtf ⟨0, y, 0⟩ hm]
  simp [sqr, h0]

/-- C9 (witness): the claim's own scenario, direction `(0, 5, 0)` with an
exact square root at 25 (so the normalized direction is `(0,1,0)`), produces
the fixed basis. -/
theorem C9_origin_lookat_vertical_witness :
    gd_create_origin_lookat sqrtTwentyFive ⟨0, 5, 0⟩ =
      ⟨0, 0, 1, 0,
       1, 0, 0, 0,
       0, 1, 0, 0,
       0, 0, 0, 1⟩ :=
  C9_origin_lookat_vertical sqrtTwentyFive 5
    (by norm_num [sqrtTwentyFive]) (by norm_num)
